import Mathlib

/-!
Shallow embedding of the MPPI `Optimizer` (mppic/src/optimizer.cpp) and the
models it manipulates.  Double arithmetic is embedded as exact rational
arithmetic (`ℚ`) where the code only adds, multiplies, divides and compares,
and as real arithmetic (`ℝ`) where transcendental functions (`exp`) appear.
Machine integers (`size_t`) are embedded as `ℕ`.
-/

namespace mppi

/-- Embeds `models::ControlConstraints`: the `{vx, vy, wz}` triple. -/
structure Constraints where
  vx : ℚ
  vy : ℚ
  wz : ℚ
deriving DecidableEq, Repr

/-- Embeds `models::OptimizerSettings`: the fields of `settings_` that the claims
touch (`model_dt`, `time_steps`, `batch_size`, `retry_attempt_limit`,
`shift_control_sequence`, `base_constraints`, `constraints`). -/
structure Settings where
  model_dt : ℚ
  time_steps : ℕ
  batch_size : ℕ
  retry_attempt_limit : ℕ
  shift_control_sequence : Bool
  base_constraints : Constraints
  constraints : Constraints
deriving DecidableEq, Repr

/-- Embeds `nav2_costmap_2d::NO_SPEED_LIMIT` (filter_values.hpp): the `0.0` sentinel. -/
def NO_SPEED_LIMIT : ℚ := 0

/-- Embeds `Optimizer::setSpeedLimit(speed_limit, percentage)`, transcribed branch by
branch from optimizer.cpp lines 302-324.  Only `settings_.constraints` is
written; everything else in `settings_` is left alone. -/
def setSpeedLimit (s : Settings) (speed_limit : ℚ) (percentage : Bool) : Settings :=
  if speed_limit = NO_SPEED_LIMIT then
    { s with constraints :=
      { vx := s.base_constraints.vx
        vy := s.base_constraints.vy
        wz := s.base_constraints.wz } }
  else if percentage then
    -- Speed limit is expressed in % from maximum speed of robot
    let ratio := speed_limit / 100
    { s with constraints :=
      { vx := s.base_constraints.vx * ratio
        vy := s.base_constraints.vy * ratio
        wz := s.base_constraints.wz * ratio } }
  else
    -- Speed limit is expressed in absolute value
    let ratio := speed_limit / s.base_constraints.vx
    { s with constraints :=
      { vx := speed_limit
        vy := s.base_constraints.vx * ratio
        wz := s.base_constraints.wz * ratio } }

/-- Outcome of `Optimizer::setOffset`: which of the three branches ran. -/
inductive OffsetOutcome where
  /-- Branch `controller_period < model_dt`: warning only, settings untouched. -/
  | warned : OffsetOutcome
  /-- Branch `|controller_period - model_dt| < eps`: shifting switched on. -/
  | shiftOn : OffsetOutcome
  /-- Otherwise the code throws `std::runtime_error("Controller period more then model dt ...")`. -/
  | fatal : OffsetOutcome
deriving DecidableEq, Repr

/-- The `eps` tolerance of `Optimizer::setOffset` (`1e-6`). -/
def offsetEps : ℚ := 1 / 1000000

/-- Embeds `Optimizer::setOffset(controller_frequency)` (optimizer.cpp lines 70-89):
computes `controller_period = 1 / controller_frequency` and either warns
(period below `model_dt`), enables `shift_control_sequence` (period within
`eps` of `model_dt`, not below), or throws.  Returns the branch taken and the
resulting settings. -/
def setOffset (s : Settings) (controller_frequency : ℚ) : OffsetOutcome × Settings :=
  let controller_period := 1 / controller_frequency
  if controller_period < s.model_dt then
    (.warned, s)
  else if |controller_period - s.model_dt| < offsetEps then
    (.shiftOn, { s with shift_control_sequence := true })
  else
    (.fatal, s)

/-- Result of one call to `Optimizer::fallback(fail)` (optimizer.cpp lines
132-150).  The function-local `static size_t counter` is passed in and
returned explicitly. -/
structure FallbackResult where
  /-- Value of the static counter after the call. -/
  counter : ℕ
  /-- Whether this call executed `reset()`. -/
  didReset : Bool
  /-- Whether this call threw `std::runtime_error("Optimizer fail to compute path")`. -/
  threw : Bool
  /-- Return value of the call (meaningless when `threw = true`). -/
  retval : Bool
deriving DecidableEq, Repr

/-- Embeds `Optimizer::fallback(fail)`.  On `fail = false` the counter clears
and the call returns `false` with no `reset()`.  On `fail = true` the call
first runs `reset()`, then throws if `counter > retry_attempt_limit` (zeroing
the counter), else increments the counter and returns `true`. -/
def fallback (limit : ℕ) (counter : ℕ) (fail : Bool) : FallbackResult :=
  if !fail then
    { counter := 0, didReset := false, threw := false, retval := false }
  else if counter > limit then
    { counter := 0, didReset := true, threw := true, retval := false }
  else
    { counter := counter + 1, didReset := true, threw := false, retval := true }

/-- Runs `N` consecutive calls `fallback(limit, ·, true)` starting from
counter value `c`, stopping early if a call throws.  Returns
`(number of reset() calls performed, final counter, whether a call threw)`. -/
def failStreak (limit : ℕ) : ℕ → ℕ → ℕ × ℕ × Bool
  | 0, c => (0, c, false)
  | N + 1, c =>
    let r := fallback limit c true
    if r.threw then
      (1, r.counter, true)
    else
      let rest := failStreak limit N r.counter
      (rest.1 + 1, rest.2.1, rest.2.2)

/-- Number of `reset()` calls performed by `N` consecutive induced failures
starting from a cleared counter. -/
def failStreakResets (limit N : ℕ) : ℕ := (failStreak limit N 0).1

/-- Whether `N` consecutive induced failures starting from a cleared counter
raise the fatal "Optimizer fail to compute path" error. -/
def failStreakThrew (limit N : ℕ) : Bool := (failStreak limit N 0).2.2

/-- Models a process holding several `Optimizer` instances.  Because the retry
counter in `Optimizer::fallback` is declared `static size_t counter = 0;`
(a function-local static), the process holds exactly one counter, shared by
every instance; the only per-instance effect of `fallback` is its `reset()`
call, tracked here per instance. -/
structure MppiProcess where
  /-- The single function-local static `counter` of `Optimizer::fallback`. -/
  staticCounter : ℕ
  /-- How many times each instance has executed `reset()`. -/
  resetCount : ℕ → ℕ

/-- Retry counter as observed by instance `i`: the source gives every
instance the same function-local static. -/
def MppiProcess.retryCounterOf (p : MppiProcess) (_i : ℕ) : ℕ := p.staticCounter

/-- Embeds a call to `fallback(fail)` on the Optimizer instance `i` (whose
`retry_attempt_limit` is `limits i`) inside process `p`: the shared static
counter is read and written, and instance `i` records its `reset()` if one ran. -/
def fallbackOn (limits : ℕ → ℕ) (p : MppiProcess) (i : ℕ) (fail : Bool) : MppiProcess :=
  let r := fallback (limits i) p.staticCounter fail
  { staticCounter := r.counter
    resetCount := fun j =>
      if j = i then p.resetCount j + (if r.didReset then 1 else 0) else p.resetCount j }

/-- Embeds the retry loop of `Optimizer::evalControl` (optimizer.cpp lines
110-112): `do { optimize(); } while (fallback(critics_data_.fail_flag));`.
Returns the number of `optimize()` passes executed until the loop exits,
either by `fallback` returning `false` (success) or by `fallback` throwing.
`fail k` is the `fail_flag` produced by the `k`-th remaining pass, and `c` is
the current value of the static retry counter. -/
def evalLoopPasses (limit : ℕ) (fail : ℕ → Bool) (c : ℕ) : ℕ :=
  if fail 0 then
    if c > limit then 1
    else 1 + evalLoopPasses limit (fun n => fail (n + 1)) (c + 1)
  else 1
termination_by limit + 1 - c
decreasing_by omega

/-- Embeds `xt::roll(data, -1, 0)` on the `(H, C)` control sequence tensor:
row `t` of the result is row `(t + 1) mod H` of the input.  `V` stands for a
whole row (the `C` control columns at one timestep). -/
def rollNeg1 {V : Type} {H : ℕ} (U : Fin H → V) : Fin H → V :=
  fun t => U ⟨(t.val + 1) % H, Nat.mod_lt _ t.pos⟩

/-- Embeds `Optimizer::shiftControlSequence` (optimizer.cpp lines 166-173):
roll the sequence by `-1` along the time axis, then overwrite the last row
with the (new) second-to-last row. -/
def shiftControlSequence {V : Type} {H : ℕ} (U : Fin H → V) : Fin H → V :=
  let rolled := rollNeg1 U
  fun t =>
    if t.val = H - 1 then rolled ⟨H - 2, Nat.sub_lt t.pos (by norm_num)⟩
    else rolled t

/-- Embeds the tail of `Optimizer::evalControl` (optimizer.cpp lines 114-120)
together with `getControlFromSequenceAsTwist` (lines 272-280): the emitted
control is row `offset` of the nominal sequence, where
`offset = shift_control_sequence ? 1 : 0`, taken before the shift; then the
sequence is shifted exactly when `shift_control_sequence` is set.  `h` is the
in-bounds fact the `xt::view` access assumes. -/
def evalControlTail {V : Type} {H : ℕ} (shift : Bool) (U : Fin H → V)
    (h : (if shift then 1 else 0) < H) : V × (Fin H → V) :=
  (U ⟨if shift then 1 else 0, h⟩, if shift then shiftControlSequence U else U)

/-- Embeds `xt::clip(e, lo, hi)`: elementwise `min(max(e, lo), hi)`. -/
def clip (x lo hi : ℚ) : ℚ := min (max x lo) hi

/-- Control slices of the state tensor `S`: `cvx`, `cvy`, `cwz` as
`(batch, time)`-indexed values (`state_.getControlVelocitiesVX()` etc.). -/
structure ControlsT (B H : ℕ) where
  cvx : Fin B → Fin H → ℚ
  cvy : Fin B → Fin H → ℚ
  cwz : Fin B → Fin H → ℚ

/-- The three motion models installed by `Optimizer::setMotionModel`
(optimizer.cpp lines 282-300). -/
inductive MotionModel where
  | diffDrive : MotionModel
  | omni : MotionModel
  | ackermann (min_turning_radius : ℚ) : MotionModel
deriving DecidableEq, Repr

/-- Holonomy flag of each motion model: only `Omni` is holonomic. -/
def MotionModel.isHolonomic : MotionModel → Bool
  | .omni => true
  | _ => false

/-- Modelled from the spec: the bodies of `MotionModel::applyConstraints`
(motion_models.hpp is not under src/).  Per spec section 4.1, "Ackermann
enforces `|wz| ≤ |vx| / min_turning_radius` elementwise; Diff/Omni are
no-ops": the Ackermann model clamps the `cwz` slice into that band and
touches nothing else. -/
def MotionModel.applyConstraints {B H : ℕ} (m : MotionModel) (S : ControlsT B H) :
    ControlsT B H :=
  match m with
  | .ackermann r =>
    { S with cwz := fun b t => clip (S.cwz b t) (-(|S.cvx b t| / r)) (|S.cvx b t| / r) }
  | _ => S

/-- Embeds `Optimizer::applyControlConstraints` (optimizer.cpp lines 190-205):
clip `cvy` to `±constraints.vy` when the model is holonomic, then run the
model-specific `applyConstraints`, then clip `cvx` to `±constraints.vx` and
`cwz` to `±constraints.wz`. -/
def applyControlConstraints {B H : ℕ} (m : MotionModel) (c : Constraints)
    (S : ControlsT B H) : ControlsT B H :=
  let S1 :=
    if m.isHolonomic then
      { S with cvy := fun b t => clip (S.cvy b t) (-c.vy) c.vy }
    else S
  let S2 := m.applyConstraints S1
  { S2 with
    cvx := fun b t => clip (S2.cvx b t) (-c.vx) c.vx
    cwz := fun b t => clip (S2.cwz b t) (-c.wz) c.wz }

/-- State tensor of one Optimizer as `reset` sees it: its `(B, H)` size, its
control entries, and its `dt` column.  Entries are indexed loosely by `ℕ`;
only indices below the recorded sizes are meaningful. -/
structure StateT where
  batch : ℕ
  horizon : ℕ
  controls : ℕ → ℕ → ℕ → ℚ
  timeIntervals : ℕ → ℕ → ℚ

/-- Nominal control sequence tensor with its horizon size. -/
structure ControlSequenceT where
  horizon : ℕ
  data : ℕ → ℕ → ℚ

/-- Noise generator buffers, sized by `NoiseGenerator::reset(settings, holonomic)`. -/
structure NoiseT where
  batch : ℕ
  horizon : ℕ
  holonomic : Bool
deriving DecidableEq, Repr

/-- Member state of one `Optimizer`: `settings_`, `state_`,
`control_sequence_`, `costs_`, the noise generator, and the holonomy of the
installed motion model. -/
structure Optimizer where
  settings : Settings
  state : StateT
  control_sequence : ControlSequenceT
  costs : ℕ → ℚ
  noise : NoiseT
  holonomicModel : Bool

/-- Embeds `Optimizer::reset` (optimizer.cpp lines 91-101):
`state_.reset(batch_size, time_steps)` and `control_sequence_.reset(time_steps)`
re-allocate and zero their tensors (modelled from the spec, section 3
"Lifecycles": `reset()` re-allocates all tensors to the current `(B, H)` and
zeros `U`; models/state.hpp is not under src/), the `dt` column is then set to
`model_dt`, `costs_` becomes `xt::zeros({batch_size})`, and the noise
generator's buffers are rebuilt from the settings and the holonomy flag.
`settings_` itself is never written. -/
def Optimizer.reset (o : Optimizer) : Optimizer :=
  { o with
    state :=
      { batch := o.settings.batch_size
        horizon := o.settings.time_steps
        controls := fun _ _ _ => 0
        timeIntervals := fun _ _ => o.settings.model_dt }
    control_sequence :=
      { horizon := o.settings.time_steps
        data := fun _ _ => 0 }
    costs := fun _ => 0
    noise :=
      { batch := o.settings.batch_size
        horizon := o.settings.time_steps
        holonomic := o.holonomicModel } }

/-- Lifts `Optimizer::setSpeedLimit` to the full member state: only
`settings_.constraints` changes. -/
def Optimizer.applySpeedLimit (o : Optimizer) (speed_limit : ℚ) (percentage : Bool) :
    Optimizer :=
  { o with settings := setSpeedLimit o.settings speed_limit percentage }

/-- Embeds `xt::squeeze` on a shape: all axes of extent 1 are removed. -/
def squeezeShape (sh : List ℕ) : List ℕ := sh.filter (fun d => d ≠ 1)

/-- Modelled from the spec: the shape of the `generated_trajectories_` member.
Its allocation site is not under src/; spec section 3 fixes the trajectory
tensor `T` to shape `(B, H, 3)` and section 5 says it is pre-allocated on
`reset()` to the current `(B, H)`. -/
def generatedTrajectoriesShape (s : Settings) : List ℕ :=
  [s.batch_size, s.time_steps, 3]

/-- Modelled from the spec: `TrajectoryIntegrator::integrate(out T, ...)`
(not under src/) writes `x`, `y`, `yaw` columns of the `out` buffer through
views (spec section 4.3), so it preserves the buffer's shape. -/
def integrateOutShape (bufferShape : List ℕ) : List ℕ := bufferShape

/-- Embeds the shape bookkeeping of `Optimizer::getOptimizedTrajectory`
(optimizer.cpp lines 241-255): the scratch buffer is allocated with
`xt::xtensor<double, 3>::from_shape(generated_trajectories_.shape())`, the
local state passed to the integrator is reset to batch size 1, and the buffer
is returned through `xt::squeeze`. -/
def getOptimizedTrajectoryShape (s : Settings) : List ℕ :=
  squeezeShape (integrateOutShape (generatedTrajectoriesShape s))

/-- Batch size of the local `models::State` built inside
`Optimizer::getOptimizedTrajectory`: `state.reset(1U, settings_.time_steps)`. -/
def getOptimizedTrajectoryStateBatch : ℕ := 1

/-- Embeds `xt::amin(costs_, immediate)`: the minimum cost over the (nonempty)
batch. -/
noncomputable def minCost (B : ℕ) [NeZero B] (costs : Fin B → ℝ) : ℝ :=
  Finset.univ.inf' Finset.univ_nonempty costs

/-- Embeds the `exponents` tensor of `Optimizer::updateControlSequence`
(optimizer.cpp lines 261-263):
`xt::exp(-1 / settings_.temperature * (costs_ - xt::amin(costs_)))`. -/
noncomputable def exponents (B : ℕ) [NeZero B] (temperature : ℝ) (costs : Fin B → ℝ) :
    Fin B → ℝ :=
  fun b => Real.exp (-1 / temperature * (costs b - minCost B costs))

/-- Embeds the `softmaxes` tensor: `exponents / xt::sum(exponents, immediate)`. -/
noncomputable def softmaxes (B : ℕ) [NeZero B] (temperature : ℝ) (costs : Fin B → ℝ) :
    Fin B → ℝ :=
  fun b => exponents B temperature costs b / ∑ b2, exponents B temperature costs b2

/-- Embeds the final assignment of `Optimizer::updateControlSequence`
(optimizer.cpp lines 268-269): entry `(t, d)` of the new nominal sequence is
`xt::sum(state_.getControls() * softmaxes_expanded, 0)`, the batch-weighted
sum of the sampled controls. -/
noncomputable def updateControlSequence (B H C : ℕ) [NeZero B] (temperature : ℝ)
    (costs : Fin B → ℝ) (controls : Fin B → Fin H → Fin C → ℝ) : Fin H → Fin C → ℝ :=
  fun t d => ∑ b, controls b t d * softmaxes B temperature costs b

/-- Weight formula written the way the claim states it:
`w[b] = exp(-(c[b] - min c)/temperature) / Σ exp(-(c[b2] - min c)/temperature)`.
Kept separate from `softmaxes` (which transcribes the code) so the two can be
compared. -/
noncomputable def specWeight (B : ℕ) [NeZero B] (temperature : ℝ) (costs : Fin B → ℝ) :
    Fin B → ℝ :=
  fun b => Real.exp (-((costs b - minCost B costs) / temperature)) /
    ∑ b2, Real.exp (-((costs b2 - minCost B costs) / temperature))

/-! Theorems. -/

lemma specWeight_eq_softmaxes (B : ℕ) [NeZero B] (temperature : ℝ) (costs : Fin B → ℝ) :
    specWeight B temperature costs = softmaxes B temperature costs := by
  have harg : ∀ x : ℝ, -(x / temperature) = -1 / temperature * x := fun x => by ring
  funext b
  unfold specWeight softmaxes exponents
  simp only [harg]

lemma sum_exponents_pos (B : ℕ) [NeZero B] (temperature : ℝ) (costs : Fin B → ℝ) :
    0 < ∑ b2, exponents B temperature costs b2 :=
  Finset.sum_pos (fun b _ => Real.exp_pos _) Finset.univ_nonempty

/-- C1: after `updateControlSequence`, the nominal sequence equals the
batch-weighted average of the sampled control sequences under the softmax
weights `w[b] = exp(-(c[b] - min c)/temperature) / Σ exp(-(c[b2] - min c)/temperature)`,
and those weights are nonnegative and sum to 1. -/
theorem updateControlSequence_softmax (B H C : ℕ) [NeZero B] (temperature : ℝ)
    (costs : Fin B → ℝ) (controls : Fin B → Fin H → Fin C → ℝ) :
    (∀ b, 0 ≤ specWeight B temperature costs b) ∧
    (∑ b, specWeight B temperature costs b = 1) ∧
    (∀ (t : Fin H) (d : Fin C),
      updateControlSequence B H C temperature costs controls t d
        = ∑ b, specWeight B temperature costs b * controls b t d) := by
  have hw := specWeight_eq_softmaxes B temperature costs
  have hpos := sum_exponents_pos B temperature costs
  refine ⟨?_, ?_, ?_⟩
  · intro b
    rw [hw]
    exact div_nonneg (Real.exp_pos _).le (le_of_lt hpos)
  · rw [hw]
    unfold softmaxes
    rw [← Finset.sum_div]
    exact div_self (ne_of_gt hpos)
  · intro t d
    rw [hw]
    unfold updateControlSequence
    exact Finset.sum_congr rfl fun b _ => mul_comm _ _

/-- Witness for C1 at `B = H = C = 1`, `temperature = 1`, zero costs,
constant controls. -/
theorem updateControlSequence_softmax_witness :
    (∀ b : Fin 1, 0 ≤ specWeight 1 1 (fun _ => 0) b) ∧
    (∑ b, specWeight 1 1 (fun _ => 0) b = 1) ∧
    (∀ (t : Fin 1) (d : Fin 1),
      updateControlSequence 1 1 1 1 (fun _ => 0) (fun _ _ _ => (2 : ℝ)) t d
        = ∑ b, specWeight 1 1 (fun _ => 0) b * 2) :=
  updateControlSequence_softmax 1 1 1 1 (fun _ => 0) (fun _ _ _ => (2 : ℝ))

lemma failStreak_no_throw (limit : ℕ) :
    ∀ N c, c + N ≤ limit + 1 → failStreak limit N c = (N, c + N, false) := by
  intro N
  induction N with
  | zero => intro c _; simp [failStreak]
  | succ n ih =>
    intro c hc
    have hle : ¬ c > limit := by omega
    have hrec := ih (c + 1) (by omega)
    simp [failStreak, fallback, hle, hrec]
    omega

lemma failStreak_throw (limit : ℕ) :
    ∀ N c, c + N = limit + 2 → 1 ≤ N → failStreak limit N c = (N, 0, true) := by
  intro N
  induction N with
  | zero => intro c _ h1; omega
  | succ n ih =>
    intro c hc _
    rcases Nat.eq_zero_or_pos n with hn | hn
    · subst hn
      have hgt : c > limit := by omega
      simp [failStreak, fallback, hgt]
    · have hle : ¬ c > limit := by omega
      have hrec := ih (c + 1) (by omega) hn
      simp [failStreak, fallback, hle, hrec]

/-- C2 counterexample: with `retry_attempt_limit = 0`, a single induced
failure (`N = 1`) performs exactly one `reset()` call — not `N + 1 = 2` — and
raises no fatal error even though `N > retry_attempt_limit`. -/
theorem retry_claim_false_at_one_failure :
    ¬(failStreakResets 0 1 = 1 + 1 ∧ (failStreakThrew 0 1 = true ↔ 1 > 0)) := by
  decide

/-- C2 (amended): starting from a cleared counter, `N` consecutive induced
failures (`N ≤ retry_attempt_limit + 2`; the streak cannot extend past the
throw) perform exactly `N` `reset()` calls, and the fatal
"Optimizer fail to compute path" error is raised exactly when
`N = retry_attempt_limit + 2`, i.e. exactly when `N > retry_attempt_limit + 1`. -/
theorem retry_resets_and_fatal (limit N : ℕ) (hN : N ≤ limit + 2) :
    failStreakResets limit N = N ∧
    (failStreakThrew limit N = true ↔ N > limit + 1) := by
  rcases Nat.lt_or_ge N (limit + 2) with hlt | hge
  · have h := failStreak_no_throw limit N 0 (by omega)
    unfold failStreakResets failStreakThrew
    rw [h]
    simp
    omega
  · have heq : N = limit + 2 := by omega
    have h := failStreak_throw limit N 0 (by omega) (by omega)
    unfold failStreakResets failStreakThrew
    rw [h]
    simp
    omega

/-- Witness for C2 (amended) at `retry_attempt_limit = 0`, `N = 2`. -/
theorem retry_resets_and_fatal_witness :
    2 ≤ 0 + 2 ∧
    (failStreakResets 0 2 = 2 ∧ (failStreakThrew 0 2 = true ↔ 2 > 0 + 1)) :=
  ⟨by decide, retry_resets_and_fatal 0 2 (by decide)⟩

/-- C3: because `Optimizer::fallback` keeps its counter in a function-local
`static size_t`, the counter is shared by every Optimizer instance in the
process.  With two instances (both with `retry_attempt_limit = 1`) and a
cleared counter, a single `fallback(true)` on instance 0 changes the retry
counter observed by instance 1 from 0 to 1 — instance 1 is now one failure
closer to its retry limit although it never failed. -/
theorem fallback_counter_is_shared :
    MppiProcess.retryCounterOf { staticCounter := 0, resetCount := fun _ => 0 } 1 = 0 ∧
    (fallbackOn (fun _ => 1) { staticCounter := 0, resetCount := fun _ => 0 } 0
        true).retryCounterOf 1 = 1 ∧
    (fallbackOn (fun _ => 1) { staticCounter := 0, resetCount := fun _ => 0 } 0
        true).resetCount 1 = 0 :=
  ⟨rfl, rfl, rfl⟩

lemma evalLoopPasses_le_aux :
    ∀ (k limit : ℕ) (fail : ℕ → Bool) (c : ℕ),
      limit + 1 - c ≤ k → evalLoopPasses limit fail c ≤ k + 1 := by
  intro k
  induction k with
  | zero =>
    intro limit fail c h
    have hgt : c > limit := by omega
    rw [evalLoopPasses]
    rcases hf : fail 0 with _ | _
    · simp [hf]
    · simp [hf, hgt]
  | succ n ih =>
    intro limit fail c h
    rw [evalLoopPasses]
    rcases hf : fail 0 with _ | _
    · simp [hf]
    · rcases Nat.lt_or_ge limit c with hgt | hle
      · simp [hf, hgt]
      · have hrec := ih limit (fun m => fail (m + 1)) (c + 1) (by omega)
        have hgt : ¬ c > limit := by omega
        simp [hf, hgt]
        omega

/-- C9: the do-while retry loop of `evalControl` terminates for every initial
value of the static retry counter (the recursion is well founded on
`retry_attempt_limit + 1 - counter`), and it executes at most
`retry_attempt_limit + 2` `optimize()` passes — in particular at most that
many from a cleared counter — before either succeeding or throwing the fatal
error. -/
theorem evalLoopPasses_le (limit : ℕ) (fail : ℕ → Bool) (c : ℕ) :
    evalLoopPasses limit fail c ≤ limit + 2 :=
  evalLoopPasses_le_aux (limit + 1) limit fail c (by omega)

/-- C4: evaluation of `setSpeedLimit` at the failing input
`base_constraints = {vx = 1/2, vy = 2/5, wz = 13/10}`, `limit = 1/4`,
`percentage = false`.  The absolute-value branch computes
`constraints.vy = base_constraints.vx * ratio` (optimizer.cpp line 320), which
equals the limit `1/4` itself, instead of the proportional scaling
`base_constraints.vy * ratio = 1/5` that the claim (and the symmetric `wz`
line right below it) prescribe; `vx` and `wz` do behave as claimed. -/
theorem setSpeedLimit_absolute_vy_unscaled :
    (setSpeedLimit
      { model_dt := 1/10, time_steps := 15, batch_size := 400,
        retry_attempt_limit := 1, shift_control_sequence := false,
        base_constraints := { vx := 1/2, vy := 2/5, wz := 13/10 },
        constraints := { vx := 1/2, vy := 2/5, wz := 13/10 } }
      (1/4) false).constraints.vx = 1/4 ∧
    (setSpeedLimit
      { model_dt := 1/10, time_steps := 15, batch_size := 400,
        retry_attempt_limit := 1, shift_control_sequence := false,
        base_constraints := { vx := 1/2, vy := 2/5, wz := 13/10 },
        constraints := { vx := 1/2, vy := 2/5, wz := 13/10 } }
      (1/4) false).constraints.vy = 1/4 ∧
    (setSpeedLimit
      { model_dt := 1/10, time_steps := 15, batch_size := 400,
        retry_attempt_limit := 1, shift_control_sequence := false,
        base_constraints := { vx := 1/2, vy := 2/5, wz := 13/10 },
        constraints := { vx := 1/2, vy := 2/5, wz := 13/10 } }
      (1/4) false).constraints.wz = 13/20 ∧
    (setSpeedLimit
      { model_dt := 1/10, time_steps := 15, batch_size := 400,
        retry_attempt_limit := 1, shift_control_sequence := false,
        base_constraints := { vx := 1/2, vy := 2/5, wz := 13/10 },
        constraints := { vx := 1/2, vy := 2/5, wz := 13/10 } }
      (1/4) false).constraints.vy ≠ (2/5 : ℚ) * ((1/4) / (1/2)) := by
  norm_num [setSpeedLimit, NO_SPEED_LIMIT]

lemma abs_clip_le (x a : ℚ) (ha : 0 ≤ a) : |clip x (-a) a| ≤ a := by
  unfold clip
  rw [abs_le]
  constructor
  · exact le_min (le_max_right x (-a)) (neg_le_self ha)
  · exact min_le_right _ _

lemma applyConstraints_preserves_cvy {B H : ℕ} (m : MotionModel) (S : ControlsT B H) :
    (m.applyConstraints S).cvy = S.cvy := by
  cases m <;> rfl

lemma applyConstraints_preserves_cvx {B H : ℕ} (m : MotionModel) (S : ControlsT B H) :
    (m.applyConstraints S).cvx = S.cvx := by
  cases m <;> rfl

/-- C5: after `applyControlConstraints`, every batch and timestep satisfies
`|cvx| ≤ constraints.vx` and `|cwz| ≤ constraints.wz`, and when the motion
model is holonomic also `|cvy| ≤ constraints.vy` — for every motion model,
including after the Ackermann model's `applyConstraints` has run (the
model-specific step precedes the `vx`/`wz` clips and never touches `cvy`). -/
theorem applyControlConstraints_bounds (B H : ℕ) (m : MotionModel) (c : Constraints)
    (S : ControlsT B H) (hvx : 0 ≤ c.vx) (hvy : 0 ≤ c.vy) (hwz : 0 ≤ c.wz)
    (b : Fin B) (t : Fin H) :
    |(applyControlConstraints m c S).cvx b t| ≤ c.vx ∧
    |(applyControlConstraints m c S).cwz b t| ≤ c.wz ∧
    (m.isHolonomic = true → |(applyControlConstraints m c S).cvy b t| ≤ c.vy) := by
  refine ⟨abs_clip_le _ _ hvx, abs_clip_le _ _ hwz, fun hh => ?_⟩
  show |(MotionModel.applyConstraints m _).cvy b t| ≤ c.vy
  rw [applyConstraints_preserves_cvy]
  simp only [applyControlConstraints, hh, if_true]
  exact abs_clip_le _ _ hvy

/-- Witness for C5: holonomic (`Omni`) model, unit constraints, constant
controls at 5, single batch and timestep. -/
theorem applyControlConstraints_bounds_witness :
    ((0 : ℚ) ≤ 1 ∧ (0 : ℚ) ≤ 1 ∧ (0 : ℚ) ≤ 1) ∧
    (|(applyControlConstraints MotionModel.omni ⟨1, 1, 1⟩
        (⟨fun _ _ => 5, fun _ _ => 5, fun _ _ => 5⟩ : ControlsT 1 1)).cvx 0 0| ≤ 1 ∧
     |(applyControlConstraints MotionModel.omni ⟨1, 1, 1⟩
        (⟨fun _ _ => 5, fun _ _ => 5, fun _ _ => 5⟩ : ControlsT 1 1)).cwz 0 0| ≤ 1 ∧
     (MotionModel.omni.isHolonomic = true →
       |(applyControlConstraints MotionModel.omni ⟨1, 1, 1⟩
          (⟨fun _ _ => 5, fun _ _ => 5, fun _ _ => 5⟩ : ControlsT 1 1)).cvy 0 0| ≤ 1)) :=
  ⟨⟨by norm_num, by norm_num, by norm_num⟩,
    applyControlConstraints_bounds 1 1 MotionModel.omni ⟨1, 1, 1⟩
      (⟨fun _ _ => 5, fun _ _ => 5, fun _ _ => 5⟩ : ControlsT 1 1)
      (by norm_num) (by norm_num) (by norm_num) 0 0⟩

lemma shiftControlSequence_of_lt {V : Type} {H : ℕ} (U : Fin H → V) (t : Fin H)
    (ht : t.val < H - 1) :
    shiftControlSequence U t = U ⟨t.val + 1, by omega⟩ := by
  have hne : t.val ≠ H - 1 := by omega
  simp only [shiftControlSequence, rollNeg1, if_neg hne]
  congr 1
  exact Fin.ext (Nat.mod_eq_of_lt (by omega))

lemma shiftControlSequence_last {V : Type} {H : ℕ} (U : Fin H → V) (hH : 2 ≤ H) :
    shiftControlSequence U ⟨H - 1, by omega⟩ = U ⟨H - 1, by omega⟩ := by
  simp only [shiftControlSequence, rollNeg1, if_pos rfl]
  congr 1
  refine Fin.ext ?_
  show (H - 2 + 1) % H = H - 1
  have h1 : H - 2 + 1 = H - 1 := by omega
  rw [h1, Nat.mod_eq_of_lt (by omega)]

/-- C6: with shifting enabled, the emitted control is row 1 of the
post-optimization nominal sequence taken before the shift, and after the tick
`U_after[t] = U_before[t+1]` for `t < H-1` while `U_after[H-1] = U_before[H-1]`;
with shifting disabled the emitted control is row 0 and the sequence is left
unshifted. -/
theorem evalControl_shift_semantics (V : Type) (H : ℕ) (U : Fin H → V) (hH : 2 ≤ H) :
    ((evalControlTail true U ((by omega : 1 < H))).1 = U ⟨1, by omega⟩) ∧
    (∀ t : Fin H, (ht : t.val < H - 1) →
      (evalControlTail true U ((by omega : 1 < H))).2 t = U ⟨t.val + 1, by omega⟩) ∧
    ((evalControlTail true U ((by omega : 1 < H))).2 ⟨H - 1, by omega⟩
        = U ⟨H - 1, by omega⟩) ∧
    ((evalControlTail false U ((by omega : 0 < H))).1 = U ⟨0, by omega⟩) ∧
    ((evalControlTail false U ((by omega : 0 < H))).2 = U) := by
  refine ⟨rfl, ?_, ?_, rfl, rfl⟩
  · intro t ht
    exact shiftControlSequence_of_lt U t ht
  · exact shiftControlSequence_last U hH

/-- Witness for C6 at `H = 2`, `U = fun t => (t.val : ℚ)`. -/
theorem evalControl_shift_semantics_witness :
    2 ≤ 2 ∧
    (((evalControlTail true (fun t : Fin 2 => (t.val : ℚ)) ((by omega : 1 < 2))).1
        = (fun t : Fin 2 => (t.val : ℚ)) ⟨1, by omega⟩) ∧
     (∀ t : Fin 2, (ht : t.val < 2 - 1) →
       (evalControlTail true (fun t : Fin 2 => (t.val : ℚ)) ((by omega : 1 < 2))).2 t
          = (fun t : Fin 2 => (t.val : ℚ)) ⟨t.val + 1, by omega⟩) ∧
     ((evalControlTail true (fun t : Fin 2 => (t.val : ℚ)) ((by omega : 1 < 2))).2
        ⟨2 - 1, by omega⟩ = (fun t : Fin 2 => (t.val : ℚ)) ⟨2 - 1, by omega⟩) ∧
     ((evalControlTail false (fun t : Fin 2 => (t.val : ℚ)) ((by omega : 0 < 2))).1
        = (fun t : Fin 2 => (t.val : ℚ)) ⟨0, by omega⟩) ∧
     ((evalControlTail false (fun t : Fin 2 => (t.val : ℚ)) ((by omega : 0 < 2))).2
        = fun t : Fin 2 => (t.val : ℚ))) :=
  ⟨by omega, evalControl_shift_semantics ℚ 2 (fun t : Fin 2 => (t.val : ℚ)) (by omega)⟩

/-- C7: evaluation of the shape bookkeeping of `getOptimizedTrajectory` at the
default configuration (`batch_size = 400`, `time_steps = 15`).  The local
state is indeed reset to batch size 1, but the scratch buffer is allocated
with `generated_trajectories_.shape() = (400, 15, 3)`; `xt::squeeze` removes
no axis of that shape, so the returned expression has shape `(400, 15, 3)` and
rank 3 — it is not the `(H, 3)` rank-2 tensor the claim (and the declared
return type `xt::xtensor<double, 2>`) call for. -/
theorem getOptimizedTrajectory_shape_mismatch :
    getOptimizedTrajectoryStateBatch = 1 ∧
    getOptimizedTrajectoryShape
      { model_dt := 1/10, time_steps := 15, batch_size := 400,
        retry_attempt_limit := 1, shift_control_sequence := false,
        base_constraints := { vx := 1/2, vy := 1/2, wz := 13/10 },
        constraints := { vx := 1/2, vy := 1/2, wz := 13/10 } } = [400, 15, 3] ∧
    getOptimizedTrajectoryShape
      { model_dt := 1/10, time_steps := 15, batch_size := 400,
        retry_attempt_limit := 1, shift_control_sequence := false,
        base_constraints := { vx := 1/2, vy := 1/2, wz := 13/10 },
        constraints := { vx := 1/2, vy := 1/2, wz := 13/10 } } ≠ [15, 3] ∧
    (getOptimizedTrajectoryShape
      { model_dt := 1/10, time_steps := 15, batch_size := 400,
        retry_attempt_limit := 1, shift_control_sequence := false,
        base_constraints := { vx := 1/2, vy := 1/2, wz := 13/10 },
        constraints := { vx := 1/2, vy := 1/2, wz := 13/10 } }).length ≠ 2 := by
  refine ⟨rfl, rfl, ?_, ?_⟩ <;> decide

/-- C8 counterexample: `model_dt = 1/10` and a controller frequency whose
period is `1/10 - 1/2000000`, i.e. equal to `model_dt` within the `1e-6`
tolerance but strictly below it.  The claim says shifting is enabled exactly
when the period equals `model_dt` within tolerance, yet the code takes the
`controller_period < model_dt` warning branch first and leaves shifting
disabled. -/
theorem setOffset_within_tolerance_below_dt_no_shift :
    |1 / (2000000 / 199999 : ℚ) - 1/10| < offsetEps ∧
    (setOffset
      { model_dt := 1/10, time_steps := 15, batch_size := 400,
        retry_attempt_limit := 1, shift_control_sequence := false,
        base_constraints := { vx := 1/2, vy := 1/2, wz := 13/10 },
        constraints := { vx := 1/2, vy := 1/2, wz := 13/10 } }
      (2000000 / 199999)).1 = OffsetOutcome.warned ∧
    (setOffset
      { model_dt := 1/10, time_steps := 15, batch_size := 400,
        retry_attempt_limit := 1, shift_control_sequence := false,
        base_constraints := { vx := 1/2, vy := 1/2, wz := 13/10 },
        constraints := { vx := 1/2, vy := 1/2, wz := 13/10 } }
      (2000000 / 199999)).2.shift_control_sequence = false := by
  refine ⟨?_, ?_, ?_⟩
  · rw [abs_sub_lt_iff]
    norm_num [offsetEps]
  · norm_num [setOffset, offsetEps]
  · norm_num [setOffset, offsetEps]

/-- C8 (amended): starting from `shift_control_sequence = false`, `setOffset`
raises the fatal configuration error exactly when the controller period
`1/controller_frequency` is at least `model_dt + eps`; it enables
`shift_control_sequence` exactly when the period is at least `model_dt` and
within `eps` of it; and a period strictly smaller than `model_dt` is accepted
with a warning and shifting left disabled. -/
theorem setOffset_branch_characterization (s : Settings) (f : ℚ)
    (hs : s.shift_control_sequence = false) :
    ((setOffset s f).1 = OffsetOutcome.fatal ↔ s.model_dt + offsetEps ≤ 1 / f) ∧
    ((setOffset s f).2.shift_control_sequence = true ↔
      s.model_dt ≤ 1 / f ∧ 1 / f < s.model_dt + offsetEps) ∧
    (1 / f < s.model_dt →
      (setOffset s f).1 = OffsetOutcome.warned ∧ (setOffset s f).2 = s) := by
  have heps : (0 : ℚ) < offsetEps := by norm_num [offsetEps]
  rcases lt_or_ge (1 / f) s.model_dt with h1 | h1
  · simp only [setOffset, if_pos h1]
    refine ⟨?_, ?_, fun _ => by simp⟩
    · simp only [reduceCtorEq, false_iff, not_le]
      linarith
    · rw [hs]
      simp only [Bool.false_eq_true, false_iff, not_and, not_lt]
      intro hd
      linarith
  · have h1' : ¬ 1 / f < s.model_dt := not_lt.mpr h1
    rcases lt_or_ge (|1 / f - s.model_dt|) offsetEps with h2 | h2
    · have habs := abs_sub_lt_iff.mp h2
      simp only [setOffset, if_neg h1', if_pos h2]
      refine ⟨?_, ?_, fun hlt => absurd hlt h1'⟩
      · simp only [reduceCtorEq, false_iff, not_le]
        linarith [habs.1]
      · simp only [true_iff]
        exact ⟨h1, by linarith [habs.1]⟩
    · have h2' : ¬ |1 / f - s.model_dt| < offsetEps := not_lt.mpr h2
      have hge : offsetEps ≤ 1 / f - s.model_dt := by
        have := abs_of_nonneg (by linarith : (0:ℚ) ≤ 1 / f - s.model_dt)
        rw [this] at h2
        exact h2
      simp only [setOffset, if_neg h1', if_neg h2']
      refine ⟨?_, ?_, fun hlt => absurd hlt h1'⟩
      · simp only [true_iff]
        linarith
      · rw [hs]
        simp only [Bool.false_eq_true, false_iff, not_and, not_lt]
        intro _
        linarith

/-- Witness for C8 (amended) at `model_dt = 1/10`, `controller_frequency = 10`
(period exactly `model_dt`): shifting is enabled, no fatal error. -/
theorem setOffset_branch_characterization_witness :
    Settings.shift_control_sequence
      { model_dt := 1/10, time_steps := 15, batch_size := 400,
        retry_attempt_limit := 1, shift_control_sequence := false,
        base_constraints := { vx := 1/2, vy := 1/2, wz := 13/10 },
        constraints := { vx := 1/2, vy := 1/2, wz := 13/10 } } = false ∧
    (((setOffset
      { model_dt := 1/10, time_steps := 15, batch_size := 400,
        retry_attempt_limit := 1, shift_control_sequence := false,
        base_constraints := { vx := 1/2, vy := 1/2, wz := 13/10 },
        constraints := { vx := 1/2, vy := 1/2, wz := 13/10 } } 10).1
          = OffsetOutcome.fatal ↔
        Settings.model_dt
          { model_dt := 1/10, time_steps := 15, batch_size := 400,
            retry_attempt_limit := 1, shift_control_sequence := false,
            base_constraints := { vx := 1/2, vy := 1/2, wz := 13/10 },
            constraints := { vx := 1/2, vy := 1/2, wz := 13/10 } } + offsetEps ≤ 1 / 10) ∧
     ((setOffset
      { model_dt := 1/10, time_steps := 15, batch_size := 400,
        retry_attempt_limit := 1, shift_control_sequence := false,
        base_constraints := { vx := 1/2, vy := 1/2, wz := 13/10 },
        constraints := { vx := 1/2, vy := 1/2, wz := 13/10 } } 10).2.shift_control_sequence
          = true ↔
        Settings.model_dt
          { model_dt := 1/10, time_steps := 15, batch_size := 400,
            retry_attempt_limit := 1, shift_control_sequence := false,
            base_constraints := { vx := 1/2, vy := 1/2, wz := 13/10 },
            constraints := { vx := 1/2, vy := 1/2, wz := 13/10 } } ≤ 1 / 10 ∧
        (1 : ℚ) / 10 <
          Settings.model_dt
            { model_dt := 1/10, time_steps := 15, batch_size := 400,
              retry_attempt_limit := 1, shift_control_sequence := false,
              base_constraints := { vx := 1/2, vy := 1/2, wz := 13/10 },
              constraints := { vx := 1/2, vy := 1/2, wz := 13/10 } } + offsetEps) ∧
     ((1 : ℚ) / 10 <
        Settings.model_dt
          { model_dt := 1/10, time_steps := 15, batch_size := 400,
            retry_attempt_limit := 1, shift_control_sequence := false,
            base_constraints := { vx := 1/2, vy := 1/2, wz := 13/10 },
            constraints := { vx := 1/2, vy := 1/2, wz := 13/10 } } →
       (setOffset
        { model_dt := 1/10, time_steps := 15, batch_size := 400,
          retry_attempt_limit := 1, shift_control_sequence := false,
          base_constraints := { vx := 1/2, vy := 1/2, wz := 13/10 },
          constraints := { vx := 1/2, vy := 1/2, wz := 13/10 } } 10).1
            = OffsetOutcome.warned ∧
       (setOffset
        { model_dt := 1/10, time_steps := 15, batch_size := 400,
          retry_attempt_limit := 1, shift_control_sequence := false,
          base_constraints := { vx := 1/2, vy := 1/2, wz := 13/10 },
          constraints := { vx := 1/2, vy := 1/2, wz := 13/10 } } 10).2
            = { model_dt := 1/10, time_steps := 15, batch_size := 400,
                retry_attempt_limit := 1, shift_control_sequence := false,
                base_constraints := { vx := 1/2, vy := 1/2, wz := 13/10 },
                constraints := { vx := 1/2, vy := 1/2, wz := 13/10 } })) :=
  ⟨rfl, setOffset_branch_characterization
    { model_dt := 1/10, time_steps := 15, batch_size := 400,
      retry_attempt_limit := 1, shift_control_sequence := false,
      base_constraints := { vx := 1/2, vy := 1/2, wz := 13/10 },
      constraints := { vx := 1/2, vy := 1/2, wz := 13/10 } } 10 rfl⟩

lemma reset_settings (o : Optimizer) : (Optimizer.reset o).settings = o.settings := rfl

lemma reset_iterate_settings (o : Optimizer) (n : ℕ) :
    (Optimizer.reset^[n] o).settings = o.settings := by
  induction n with
  | zero => rfl
  | succ n ih => rw [Function.iterate_succ_apply', reset_settings, ih]

lemma setSpeedLimit_base (s : Settings) (speed_limit : ℚ) (percentage : Bool) :
    (setSpeedLimit s speed_limit percentage).base_constraints = s.base_constraints := by
  unfold setSpeedLimit
  split
  · rfl
  · split <;> rfl

/-- C10: `reset()` rebuilds the state tensors, the nominal control sequence,
the costs tensor and the noise buffers from `settings_` (zeroing the data and
setting the `dt` column to `model_dt`), but never writes `settings_`: the
active `constraints` and the `base_constraints` installed by `setSpeedLimit`
survive any number of `reset()` calls, including the resets triggered by
fallback retries and parameter-update callbacks. -/
theorem reset_rebuilds_tensors_preserves_settings (o : Optimizer) (speed_limit : ℚ)
    (percentage : Bool) (n : ℕ) :
    (Optimizer.reset o).settings = o.settings ∧
    (Optimizer.reset o).state.batch = o.settings.batch_size ∧
    (Optimizer.reset o).state.horizon = o.settings.time_steps ∧
    (Optimizer.reset o).state.controls = (fun _ _ _ => 0) ∧
    (Optimizer.reset o).state.timeIntervals = (fun _ _ => o.settings.model_dt) ∧
    (Optimizer.reset o).control_sequence
      = { horizon := o.settings.time_steps, data := fun _ _ => 0 } ∧
    (Optimizer.reset o).costs = (fun _ => 0) ∧
    (Optimizer.reset o).noise
      = { batch := o.settings.batch_size, horizon := o.settings.time_steps,
          holonomic := o.holonomicModel } ∧
    (Optimizer.reset^[n] (o.applySpeedLimit speed_limit percentage)).settings.constraints
      = (setSpeedLimit o.settings speed_limit percentage).constraints ∧
    (Optimizer.reset^[n] (o.applySpeedLimit speed_limit percentage)).settings.base_constraints
      = o.settings.base_constraints := by
  refine ⟨rfl, rfl, rfl, rfl, rfl, rfl, rfl, rfl, ?_, ?_⟩
  · rw [reset_iterate_settings]
    rfl
  · rw [reset_iterate_settings]
    exact setSpeedLimit_base o.settings speed_limit percentage

end mppi
